import Mathlib

/-!
# node-tunfd: `TunInterface` (src/tuntap.cc)

A shallow embedding of the N-API class `TunInterface`: its constructor
(device allocation through `/dev/net/tun` and `TUNSETIFF`), the accessors
`GetName` / `GetFd`, the two configuration methods `SetPersist` and
`SetAddress`, and the destructor.

Modelling conventions.

* The operating system is an oracle `Platform.sys`: given the calls issued so
  far and the call being issued it yields the call's return value, the
  contents of the request structure after the call, and the `strerror(errno)`
  text.  Every function threads the chronological list of calls it issued.
* A `char` is a natural number, a `std::string` is the list of its bytes, and a
  JavaScript string value is represented by the bytes `As<Napi::String>()`
  converts it to.
* A method that raises a JavaScript exception yields `Except.error`; the value
  it hands back to N-API while an exception is pending is not observable and is
  not modelled.
-/

/-! ## Bytes and C strings -/

/-- One `char`. -/
abbrev Byte := Nat

/-- The contents of a `std::string` (without the terminator `c_str()` adds). -/
abbrev StdString := List Byte

/-- The `std::string` holding an ASCII literal. -/
def ascii (s : String) : StdString := s.data.map Char.toNat

/-- `strncpy(dst, src.c_str(), n)`: the `n` bytes left in `dst`.  Bytes are
copied up to the first NUL of the source (the end of the list stands for the
terminator of `c_str()`); once the source is exhausted the rest of the `n`
bytes is filled with NUL.  When the source has `n` or more bytes before its
first NUL, no NUL is written. -/
def strncpy : StdString → Nat → List Byte
  | _, 0 => []
  | [], n + 1 => 0 :: strncpy [] n
  | c :: cs, n + 1 => if c = 0 then 0 :: strncpy [] n else c :: strncpy cs n

/-- `std::string(buf)` for a `char` array `buf`: the bytes before the first
NUL.  (On an array holding no NUL the C++ code reads past the array; the model
then yields the whole array.) -/
def stringOfChars (buf : List Byte) : StdString := buf.takeWhile (fun c => c ≠ 0)

/-! ## Platform constants (linux/if.h, linux/if_tun.h, sys/socket.h, fcntl.h) -/

def IFNAMSIZ : Nat := 16
def IFF_TUN : Nat := 0x0001
def IFF_TAP : Nat := 0x0002
def IFF_NO_PI : Nat := 0x1000
def IFF_UP : Nat := 0x1
def IFF_RUNNING : Nat := 0x40
def AF_INET : Nat := 2
def SOCK_DGRAM : Nat := 2
def O_RDWR : Nat := 2

/-- The ioctl request codes used by the source. -/
inductive IoctlRequest
  | TUNSETIFF
  | TUNSETPERSIST
  | SIOCSIFADDR
  | SIOCGIFFLAGS
  | SIOCSIFFLAGS
  deriving DecidableEq, Repr

/-! ## `struct ifreq` -/

/-- The fields of `struct ifreq` the source touches.  `ifr_flags` (a `short`)
and `ifr_addr` (a `struct sockaddr`) are members of one union: `ifr_flags`
occupies the same two bytes as `ifr_addr.sa_family`, and `ifr_addr_data` is
`ifr_addr.sa_data`, the 14 bytes that follow. -/
structure Ifreq where
  ifr_name : List Byte
  ifr_flags : Nat
  ifr_addr_data : List Byte
  deriving DecidableEq, Repr

/-- `memset(&ifr, 0, sizeof(ifr))`. -/
def Ifreq.zeroed : Ifreq :=
  { ifr_name := List.replicate IFNAMSIZ 0, ifr_flags := 0, ifr_addr_data := List.replicate 14 0 }

/-! ## Operating-system calls -/

/-- The third argument of `ioctl`. -/
inductive IoctlArg
  | ifreq (ifr : Ifreq)
  | int (n : Nat)
  deriving DecidableEq, Repr

/-- One call into the operating system. -/
inductive Syscall
  | open (path : String) (oflag : Nat)
  | ioctl (fd : Int) (request : IoctlRequest) (arg : IoctlArg)
  | socket (domain type protocol : Nat)
  | close (fd : Int)
  deriving DecidableEq, Repr

/-- The calls issued so far, oldest first. -/
abbrev Trace := List Syscall

/-- What a call yields: its return value, the contents of the `ifreq` the call
was given after the kernel wrote into it (meaningful for `ioctl` calls that
pass one), and `strerror(errno)` after the call. -/
structure Reply where
  ret : Int
  ifr : Ifreq
  err : String
  deriving DecidableEq, Repr

/-- The environment of the program: the kernel, whose answer may depend on
every call issued before, and libc `inet_addr`, which yields the four bytes of
the `in_addr_t` it returns as they lie in memory. -/
structure Platform where
  sys : Trace → Syscall → Reply
  inet_addr : StdString → List Byte

/-! ## JavaScript values and errors -/

/-- The JavaScript values the source distinguishes.  `object` stands for every
value `IsObject` accepts (plain objects, arrays, functions); its property list
holds every property `Has` / `Get` can see, the first entry of a key being the
one read. -/
inductive JsValue
  | undefined
  | null
  | boolean (b : Bool)
  | number (n : Int)
  | string (s : StdString)
  | object (props : List (String × JsValue))

/-- `Napi::Value::IsObject`. -/
def JsValue.IsObject : JsValue → Bool
  | .object _ => true
  | _ => false

/-- `Napi::Value::IsString`. -/
def JsValue.IsString : JsValue → Bool
  | .string _ => true
  | _ => false

/-- `Napi::Value::IsBoolean`. -/
def JsValue.IsBoolean : JsValue → Bool
  | .boolean _ => true
  | _ => false

/-- `Napi::Object::Has(key)`. -/
def JsValue.Has : JsValue → String → Bool
  | .object props, key => props.any (fun p => p.1 == key)
  | _, _ => false

/-- `Napi::Object::Get(key)`; a missing property reads as `undefined`. -/
def JsValue.Get : JsValue → String → JsValue
  | .object props, key =>
    match props.find? (fun p => p.1 == key) with
    | some p => p.2
    | none => .undefined
  | _, _ => .undefined

/-- `value.As<Napi::String>()` converted to `std::string`; the source only
converts values it has checked with `IsString`. -/
def JsValue.AsStdString : JsValue → StdString
  | .string s => s
  | _ => []

/-- `value.As<Napi::Boolean>()` converted to `bool`; the source only converts
values it has checked with `IsBoolean`. -/
def JsValue.AsBool : JsValue → Bool
  | .boolean b => b
  | _ => false

/-- A pending JavaScript exception. -/
inductive JsError
  | typeError (msg : String)
  | error (msg : String)
  deriving DecidableEq, Repr

/-- Modelled from the spec: `throwTypeError` of throwerror.h, which is not
among the sources.  A configuration error is "reported synchronously to the
caller with a descriptive message": the helper raises a JavaScript `TypeError`
carrying the message; the caller returns right after. -/
def throwTypeError (msg : String) : JsError := JsError.typeError msg

/-- Modelled from the spec: `throwError` of throwerror.h, which is not among
the sources (`throwError` is a reserved word here, hence the name).  An
OS-call failure is "reported with the failing operation's identity and the
underlying OS-reported reason string": the helper raises a JavaScript `Error`
carrying the message. -/
def throwErrorJs (msg : String) : JsError := JsError.error msg

/-! ## The class -/

/-- The data members of a `TunInterface` object. -/
structure TunInterface where
  fd : Int
  name : StdString
  deriving DecidableEq, Repr

/-- The state a member function leaves behind: the object, what the JavaScript
caller gets (a value, or the exception raised), and the calls issued so far. -/
structure Outcome (α : Type) where
  self : TunInterface
  result : Except JsError α
  trace : Trace

/-- The handle a `new TunInterface(...)` expression evaluates to: the object
when the constructor raised nothing, none when it raised. -/
def Outcome.handle (o : Outcome Unit) : Option TunInterface :=
  match o.result with
  | .ok _ => some o.self
  | .error _ => none

/-! ### Constructor, lines 32-92 -/

/-- Lines 34-42: the options object. -/
def TunInterface.options (info : List JsValue) : Except JsError JsValue :=
  match info with
  | [] => .ok (JsValue.object [])
  | arg0 :: _ =>
    if !arg0.IsObject then .error (throwTypeError "Argument should be an object")
    else .ok arg0

/-- Lines 47-54: `options.name`. -/
def TunInterface.optionName (options : JsValue) (ifr : Ifreq) : Except JsError Ifreq :=
  if options.Has "name" then
    if !(options.Get "name").IsString then
      .error (throwTypeError "options.name should be a string")
    else
      let name := (options.Get "name").AsStdString
      .ok { ifr with ifr_name := strncpy name IFNAMSIZ }
  else .ok ifr

/-- Lines 57-70: `options.mode`. -/
def TunInterface.optionMode (options : JsValue) (ifr : Ifreq) : Except JsError Ifreq :=
  if !options.Has "mode" then .ok { ifr with ifr_flags := ifr.ifr_flags ||| IFF_TUN }
  else
    if !(options.Get "mode").IsString then
      .error (throwTypeError "options.mode should be a string")
    else
      let mode := (options.Get "mode").AsStdString
      if mode = ascii "tun" then .ok { ifr with ifr_flags := ifr.ifr_flags ||| IFF_TUN }
      else if mode = ascii "tap" then .ok { ifr with ifr_flags := ifr.ifr_flags ||| IFF_TAP }
      else .error (throwTypeError "options.mode must be either 'tun' or 'tap'")

/-- Lines 74-81: `options.pi`. -/
def TunInterface.optionPi (options : JsValue) (ifr : Ifreq) : Except JsError Ifreq :=
  if !options.Has "pi" then .ok { ifr with ifr_flags := ifr.ifr_flags ||| IFF_NO_PI }
  else
    if !(options.Get "pi").IsBoolean then
      .error (throwTypeError "options.pi should be a boolean")
    else
      if !(options.Get "pi").AsBool then .ok { ifr with ifr_flags := ifr.ifr_flags ||| IFF_NO_PI }
      else .ok ifr

/-- Lines 33-81: the request structure the constructor builds from its
arguments, or the configuration error it raises. -/
def TunInterface.request (info : List JsValue) : Except JsError Ifreq :=
  match TunInterface.options info with
  | .error e => .error e
  | .ok options =>
    match TunInterface.optionName options Ifreq.zeroed with
    | .error e => .error e
    | .ok ifr1 =>
      match TunInterface.optionMode options ifr1 with
      | .error e => .error e
      | .ok ifr2 => TunInterface.optionPi options ifr2

/-- Line 82: `open("/dev/net/tun", O_RDWR)`. -/
def TunInterface.openCall : Syscall := Syscall.open "/dev/net/tun" O_RDWR

/-- What the call of line 82 yields after the calls `tr`. -/
def TunInterface.openReply (P : Platform) (tr : Trace) : Reply :=
  P.sys tr TunInterface.openCall

/-- Line 87: `ioctl(fd, TUNSETIFF, &ifr)` on the descriptor line 82 stored. -/
def TunInterface.setiffCall (P : Platform) (tr : Trace) (ifr : Ifreq) : Syscall :=
  Syscall.ioctl (TunInterface.openReply P tr).ret IoctlRequest.TUNSETIFF (IoctlArg.ifreq ifr)

/-- What the call of line 87 yields. -/
def TunInterface.setiffReply (P : Platform) (tr : Trace) (ifr : Ifreq) : Reply :=
  P.sys (tr ++ [TunInterface.openCall]) (TunInterface.setiffCall P tr ifr)

/-- The constructor `TunInterface::TunInterface(info)`, run on an object whose
members hold `self` and after the calls `tr`.  (Inside the namespace of the
class the name `TunInterface` has to keep meaning the class, hence `ctor`.) -/
def TunInterface.ctor (P : Platform) (self : TunInterface) (info : List JsValue)
    (tr : Trace) : Outcome Unit :=
  match TunInterface.request info with
  | .error e => { self := self, result := .error e, trace := tr }
  | .ok ifr =>
    let opened := TunInterface.openReply P tr
    let self1 : TunInterface := { self with fd := opened.ret }
    if opened.ret < 0 then
      { self := self1, result := .error (throwErrorJs ("open /dev/net/tun: " ++ opened.err)),
        trace := tr ++ [TunInterface.openCall] }
    else
      let created := TunInterface.setiffReply P tr ifr
      if created.ret < 0 then
        { self := self1, result := .error (throwErrorJs ("ioctl TUNSETIFF: " ++ created.err)),
          trace := tr ++ [TunInterface.openCall, TunInterface.setiffCall P tr ifr] }
      else
        { self := { self1 with name := stringOfChars created.ifr.ifr_name }, result := .ok (),
          trace := tr ++ [TunInterface.openCall, TunInterface.setiffCall P tr ifr] }

/-- `TunInterface::GetName`, lines 94-96. -/
def TunInterface.GetName (self : TunInterface) : JsValue := JsValue.string self.name

/-- `TunInterface::GetFd`, lines 98-100. -/
def TunInterface.GetFd (self : TunInterface) : JsValue := JsValue.number self.fd

/-- `TunInterface::SetPersist`, lines 102-109. -/
def TunInterface.SetPersist (P : Platform) (self : TunInterface) (info : List JsValue)
    (tr : Trace) : Outcome JsValue :=
  match info with
  | [] => { self := self, result := .error (throwTypeError "Needs 1 argument"), trace := tr }
  | arg0 :: _ =>
    if !arg0.IsBoolean then
      { self := self, result := .error (throwTypeError "Argument should be a boolean"),
        trace := tr }
    else
      let call := Syscall.ioctl self.fd IoctlRequest.TUNSETPERSIST
        (IoctlArg.int (if arg0.AsBool then 1 else 0))
      let reply := P.sys tr call
      if reply.ret < 0 then
        { self := self, result := .error (throwErrorJs ("ioctl TUNSETPERSIST: " ++ reply.err)),
          trace := tr ++ [call] }
      else { self := self, result := .ok arg0, trace := tr ++ [call] }

/-- Lines 121-140 of `SetAddress`: the request structure before the first
control call.  `ifr_name` receives `strncpy(name, IFNAMSIZ)`; the 16 bytes of
the zeroed `sockaddr_in` with `sin_family = AF_INET`, `sin_port = 0` and
`sin_addr.s_addr = inet_addr(IP_ADDR)` are copied over `ifr_addr`, so the two
bytes shared with `ifr_flags` hold `AF_INET`. -/
def TunInterface.addressRequest (P : Platform) (self : TunInterface) (IP_ADDR : StdString) :
    Ifreq :=
  { ifr_name := strncpy self.name IFNAMSIZ
    ifr_flags := AF_INET
    ifr_addr_data := [0, 0] ++ P.inet_addr (stringOfChars IP_ADDR) ++ List.replicate 8 0 }

/-- Line 127: `socket(AF_INET, SOCK_DGRAM, 0)`. -/
def TunInterface.socketCall : Syscall := Syscall.socket AF_INET SOCK_DGRAM 0

/-- The value line 127 stores in `sockfd`; it is not checked. -/
def TunInterface.sockfd (P : Platform) (tr : Trace) : Int :=
  (P.sys tr TunInterface.socketCall).ret

/-- Line 142: `ioctl(sockfd, SIOCSIFADDR, &ifr)`. -/
def TunInterface.setAddrCall (P : Platform) (self : TunInterface) (IP_ADDR : StdString)
    (tr : Trace) : Syscall :=
  Syscall.ioctl (TunInterface.sockfd P tr) IoctlRequest.SIOCSIFADDR
    (IoctlArg.ifreq (TunInterface.addressRequest P self IP_ADDR))

/-- What the call of line 142 yields; only the contents it leaves in `ifr` are
used. -/
def TunInterface.setAddrReply (P : Platform) (self : TunInterface) (IP_ADDR : StdString)
    (tr : Trace) : Reply :=
  P.sys (tr ++ [TunInterface.socketCall]) (TunInterface.setAddrCall P self IP_ADDR tr)

/-- Line 143: `ioctl(sockfd, SIOCGIFFLAGS, &ifr)`. -/
def TunInterface.getFlagsCall (P : Platform) (self : TunInterface) (IP_ADDR : StdString)
    (tr : Trace) : Syscall :=
  Syscall.ioctl (TunInterface.sockfd P tr) IoctlRequest.SIOCGIFFLAGS
    (IoctlArg.ifreq (TunInterface.setAddrReply P self IP_ADDR tr).ifr)

/-- What the call of line 143 yields; only the contents it leaves in `ifr` are
used. -/
def TunInterface.getFlagsReply (P : Platform) (self : TunInterface) (IP_ADDR : StdString)
    (tr : Trace) : Reply :=
  P.sys (tr ++ [TunInterface.socketCall, TunInterface.setAddrCall P self IP_ADDR tr])
    (TunInterface.getFlagsCall P self IP_ADDR tr)

/-- Line 145: `ifr.ifr_flags |= IFF_UP | IFF_RUNNING`. -/
def TunInterface.flagsRequest (P : Platform) (self : TunInterface) (IP_ADDR : StdString)
    (tr : Trace) : Ifreq :=
  { (TunInterface.getFlagsReply P self IP_ADDR tr).ifr with
    ifr_flags := (TunInterface.getFlagsReply P self IP_ADDR tr).ifr.ifr_flags
      ||| (IFF_UP ||| IFF_RUNNING) }

/-- Line 148: `ioctl(sockfd, SIOCSIFFLAGS, &ifr)`. -/
def TunInterface.setFlagsCall (P : Platform) (self : TunInterface) (IP_ADDR : StdString)
    (tr : Trace) : Syscall :=
  Syscall.ioctl (TunInterface.sockfd P tr) IoctlRequest.SIOCSIFFLAGS
    (IoctlArg.ifreq (TunInterface.flagsRequest P self IP_ADDR tr))

/-- What the call of line 148 yields. -/
def TunInterface.setFlagsReply (P : Platform) (self : TunInterface) (IP_ADDR : StdString)
    (tr : Trace) : Reply :=
  P.sys (tr ++ [TunInterface.socketCall, TunInterface.setAddrCall P self IP_ADDR tr,
      TunInterface.getFlagsCall P self IP_ADDR tr])
    (TunInterface.setFlagsCall P self IP_ADDR tr)

/-- `TunInterface::SetAddress`, lines 113-178. -/
def TunInterface.SetAddress (P : Platform) (self : TunInterface) (info : List JsValue)
    (tr : Trace) : Outcome JsValue :=
  match info with
  | [] =>
    { self := self, result := .error (throwTypeError "Needs 2 arguments - \"IP\" and \"MASK\""),
      trace := tr }
  | arg0 :: _ =>
    if !arg0.IsString then
      { self := self, result := .error (throwTypeError "Argument should be a string"),
        trace := tr }
    else
      let IP_ADDR := arg0.AsStdString
      let final := TunInterface.setFlagsReply P self IP_ADDR tr
      let issued := tr ++ [TunInterface.socketCall, TunInterface.setAddrCall P self IP_ADDR tr,
        TunInterface.getFlagsCall P self IP_ADDR tr, TunInterface.setFlagsCall P self IP_ADDR tr]
      if final.ret < 0 then
        { self := self, result := .error (throwErrorJs ("ioctl SIOCSIFFLAGS: " ++ final.err)),
          trace := issued }
      else { self := self, result := .ok arg0, trace := issued }

/-- The destructor `TunInterface::~TunInterface`, lines 180-184: `close(fd)`,
the return value ignored. -/
def TunInterface.destructor (self : TunInterface) (tr : Trace) : Trace :=
  tr ++ [Syscall.close self.fd]

/-! ### Sequences of method calls -/

/-- One call of a configuration method from JavaScript, with its arguments. -/
inductive MethodCall
  | setPersist (info : List JsValue)
  | setAddress (info : List JsValue)

/-- The object and the trace after one method call, whether it returned or
raised. -/
def TunInterface.invoke (P : Platform) (st : TunInterface × Trace) (call : MethodCall) :
    TunInterface × Trace :=
  match call with
  | .setPersist info =>
    ((TunInterface.SetPersist P st.1 info st.2).self,
      (TunInterface.SetPersist P st.1 info st.2).trace)
  | .setAddress info =>
    ((TunInterface.SetAddress P st.1 info st.2).self,
      (TunInterface.SetAddress P st.1 info st.2).trace)

/-- The object and the trace after a sequence of method calls. -/
def TunInterface.invokeAll (P : Platform) (st : TunInterface × Trace) (calls : List MethodCall) :
    TunInterface × Trace :=
  calls.foldl (TunInterface.invoke P) st

/-! ## Sample environments -/

/-- A kernel that grants every request: `open` yields descriptor 3, `socket`
descriptor 4, `TUNSETIFF` writes back the name `tun0`, `SIOCGIFFLAGS` reports
the flags word `0x1090`, and every other `ioctl` leaves the request as passed.
Its `inet_addr` yields `INADDR_NONE` for every input. -/
def grantingPlatform : Platform where
  sys := fun _ call =>
    match call with
    | .open _ _ => { ret := 3, ifr := Ifreq.zeroed, err := "" }
    | .socket _ _ _ => { ret := 4, ifr := Ifreq.zeroed, err := "" }
    | .close _ => { ret := 0, ifr := Ifreq.zeroed, err := "" }
    | .ioctl _ .TUNSETIFF (.ifreq r) =>
      { ret := 0, ifr := { r with ifr_name := strncpy (ascii "tun0") IFNAMSIZ }, err := "" }
    | .ioctl _ .SIOCGIFFLAGS (.ifreq r) =>
      { ret := 0, ifr := { r with ifr_flags := 0x1090 }, err := "" }
    | .ioctl _ _ (.ifreq r) => { ret := 0, ifr := r, err := "" }
    | .ioctl _ _ (.int _) => { ret := 0, ifr := Ifreq.zeroed, err := "" }
  inet_addr := fun _ => [255, 255, 255, 255]

/-- A kernel that opens `/dev/net/tun` as descriptor 3 and a socket as
descriptor 4 but refuses every `ioctl` with `EPERM`. -/
def refusingPlatform : Platform where
  sys := fun _ call =>
    match call with
    | .open _ _ => { ret := 3, ifr := Ifreq.zeroed, err := "" }
    | .socket _ _ _ => { ret := 4, ifr := Ifreq.zeroed, err := "" }
    | .close _ => { ret := 0, ifr := Ifreq.zeroed, err := "" }
    | .ioctl _ _ (.ifreq r) => { ret := -1, ifr := r, err := "Operation not permitted" }
    | .ioctl _ _ (.int _) => { ret := -1, ifr := Ifreq.zeroed, err := "Operation not permitted" }
  inet_addr := fun _ => [255, 255, 255, 255]

/-- An object whose members have not been set by any constructor yet. -/
def freshObject : TunInterface := { fd := 0, name := [] }

/-- The handle the constructor leaves on `grantingPlatform`. -/
def tun0 : TunInterface := { fd := 3, name := ascii "tun0" }

/-- The request the constructor builds for `{mode: "tap", pi: true}`. -/
def tapPiRequest : Ifreq :=
  { ifr_name := List.replicate 16 0, ifr_flags := 2, ifr_addr_data := List.replicate 14 0 }

/-- The request the constructor builds when it is given no argument. -/
def defaultRequest : Ifreq :=
  { ifr_name := List.replicate 16 0, ifr_flags := 0x1001, ifr_addr_data := List.replicate 14 0 }

/-- The request the constructor builds for `{name: "abcdefghijklmnop"}`. -/
def sixteenByteRequest : Ifreq :=
  { ifr_name := [97, 98, 99, 100, 101, 102, 103, 104, 105, 106, 107, 108, 109, 110, 111, 112],
    ifr_flags := 0x1001, ifr_addr_data := List.replicate 14 0 }

/-! ## Theorems -/

/-- C5. `setPersist` called with zero arguments, or with a first argument that
is not a boolean, raises a `TypeError` and issues no kernel call: the trace is
the one it started from, for every platform, handle and trace. -/
theorem C5_setPersist_config_error (P : Platform) (self : TunInterface) (info : List JsValue)
    (tr : Trace)
    (h : info = [] ∨ ∃ arg0 rest, info = arg0 :: rest ∧ arg0.IsBoolean = false) :
    (∃ msg, (TunInterface.SetPersist P self info tr).result = .error (JsError.typeError msg))
      ∧ (TunInterface.SetPersist P self info tr).trace = tr := by
  rcases h with h | ⟨arg0, rest, h, hb⟩
  · subst h
    exact ⟨⟨_, rfl⟩, rfl⟩
  · subst h
    simp [TunInterface.SetPersist, hb, throwTypeError]

/-- Witness of C5: `setPersist("yes")` on the handle `tun0`. -/
theorem C5_setPersist_config_error_witness :
    (∃ msg, (TunInterface.SetPersist grantingPlatform tun0 [JsValue.string (ascii "yes")] []).result
        = .error (JsError.typeError msg))
      ∧ (TunInterface.SetPersist grantingPlatform tun0 [JsValue.string (ascii "yes")] []).trace
        = [] :=
  C5_setPersist_config_error grantingPlatform tun0 [JsValue.string (ascii "yes")] []
    (Or.inr ⟨_, _, rfl, rfl⟩)

/-- C6. For every handle and every boolean `enabled`, `setPersist(enabled)`
issues exactly one call, `ioctl(fd, TUNSETPERSIST, enabled ? 1 : 0)` on the
handle's own descriptor; it returns `enabled` exactly when that call returns a
non-negative value, and otherwise raises `ioctl TUNSETPERSIST: <reason>`. -/
theorem C6_setPersist_single_call (P : Platform) (self : TunInterface) (enabled : Bool)
    (rest : List JsValue) (tr : Trace) :
    (TunInterface.SetPersist P self (JsValue.boolean enabled :: rest) tr).trace
        = tr ++ [Syscall.ioctl self.fd IoctlRequest.TUNSETPERSIST
            (IoctlArg.int (if enabled then 1 else 0))]
      ∧ ((TunInterface.SetPersist P self (JsValue.boolean enabled :: rest) tr).result
            = .ok (JsValue.boolean enabled)
          ↔ 0 ≤ (P.sys tr (Syscall.ioctl self.fd IoctlRequest.TUNSETPERSIST
              (IoctlArg.int (if enabled then 1 else 0)))).ret)
      ∧ ((P.sys tr (Syscall.ioctl self.fd IoctlRequest.TUNSETPERSIST
              (IoctlArg.int (if enabled then 1 else 0)))).ret < 0 →
          (TunInterface.SetPersist P self (JsValue.boolean enabled :: rest) tr).result
            = .error (throwErrorJs ("ioctl TUNSETPERSIST: "
                ++ (P.sys tr (Syscall.ioctl self.fd IoctlRequest.TUNSETPERSIST
                    (IoctlArg.int (if enabled then 1 else 0)))).err))) := by
  simp only [TunInterface.SetPersist, JsValue.IsBoolean, JsValue.AsBool, Bool.not_true,
    Bool.false_eq_true, if_false]
  by_cases hr : (P.sys tr (Syscall.ioctl self.fd IoctlRequest.TUNSETPERSIST
      (IoctlArg.int (if enabled = true then 1 else 0)))).ret < 0
  · simp [hr]
  · simp [hr, not_lt.mp hr]

/-! ### The request built from the arguments -/

theorem TunInterface.optionName_error_kind (o : JsValue) (ifr : Ifreq) (e : JsError)
    (h : TunInterface.optionName o ifr = .error e) : ∃ msg, e = JsError.typeError msg := by
  unfold TunInterface.optionName at h
  split_ifs at h
  · exact ⟨_, (Except.error.inj h).symm⟩

theorem TunInterface.optionMode_error_kind (o : JsValue) (ifr : Ifreq) (e : JsError)
    (h : TunInterface.optionMode o ifr = .error e) : ∃ msg, e = JsError.typeError msg := by
  unfold TunInterface.optionMode at h
  dsimp only at h
  split_ifs at h
  · exact ⟨_, (Except.error.inj h).symm⟩
  · exact ⟨_, (Except.error.inj h).symm⟩

theorem TunInterface.optionPi_error_kind (o : JsValue) (ifr : Ifreq) (e : JsError)
    (h : TunInterface.optionPi o ifr = .error e) : ∃ msg, e = JsError.typeError msg := by
  unfold TunInterface.optionPi at h
  split_ifs at h
  · exact ⟨_, (Except.error.inj h).symm⟩

/-- Every error `request` yields is a `TypeError`. -/
theorem TunInterface.request_error_kind (info : List JsValue) (e : JsError)
    (h : TunInterface.request info = .error e) : ∃ msg, e = JsError.typeError msg := by
  unfold TunInterface.request at h
  cases ho : TunInterface.options info with
  | error e0 =>
    simp only [ho] at h
    cases info with
    | nil => simp [TunInterface.options] at ho
    | cons a rest =>
      simp only [TunInterface.options] at ho
      split_ifs at ho
      exact ⟨_, ((Except.error.inj h).symm.trans (Except.error.inj ho).symm)⟩
  | ok o =>
    simp only [ho] at h
    cases hn : TunInterface.optionName o Ifreq.zeroed with
    | error e1 =>
      simp only [hn] at h
      exact (Except.error.inj h) ▸ TunInterface.optionName_error_kind _ _ _ hn
    | ok ifr1 =>
      simp only [hn] at h
      cases hm : TunInterface.optionMode o ifr1 with
      | error e2 =>
        simp only [hm] at h
        exact (Except.error.inj h) ▸ TunInterface.optionMode_error_kind _ _ _ hm
      | ok ifr2 =>
        simp only [hm] at h
        exact TunInterface.optionPi_error_kind _ _ _ h

theorem TunInterface.optionName_ok_valid (o : JsValue) (ifr ifr1 : Ifreq)
    (h : TunInterface.optionName o ifr = .ok ifr1) :
    ¬ (o.Has "name" = true ∧ (o.Get "name").IsString = false) := by
  rintro ⟨h1, h2⟩
  simp [TunInterface.optionName, h1, h2] at h

theorem TunInterface.optionMode_ok_valid (o : JsValue) (ifr ifr1 : Ifreq)
    (h : TunInterface.optionMode o ifr = .ok ifr1) :
    ¬ (o.Has "mode" = true ∧ o.Get "mode" ≠ JsValue.string (ascii "tun")
        ∧ o.Get "mode" ≠ JsValue.string (ascii "tap")) := by
  rintro ⟨h1, h2, h3⟩
  cases hg : o.Get "mode" <;>
    simp_all [TunInterface.optionMode, JsValue.IsString, JsValue.AsStdString]

theorem TunInterface.optionPi_ok_valid (o : JsValue) (ifr ifr1 : Ifreq)
    (h : TunInterface.optionPi o ifr = .ok ifr1) :
    ¬ (o.Has "pi" = true ∧ (o.Get "pi").IsBoolean = false) := by
  rintro ⟨h1, h2⟩
  simp [TunInterface.optionPi, h1, h2] at h

/-- What `request` yielding a request structure says about the arguments and
about the steps that built it. -/
theorem TunInterface.request_ok_steps (info : List JsValue) (ifr : Ifreq)
    (h : TunInterface.request info = .ok ifr) :
    ∃ o ifr1 ifr2, TunInterface.options info = .ok o
      ∧ TunInterface.optionName o Ifreq.zeroed = .ok ifr1
      ∧ TunInterface.optionMode o ifr1 = .ok ifr2
      ∧ TunInterface.optionPi o ifr2 = .ok ifr := by
  unfold TunInterface.request at h
  cases ho : TunInterface.options info with
  | error e0 => simp [ho] at h
  | ok o =>
    simp only [ho] at h
    cases hn : TunInterface.optionName o Ifreq.zeroed with
    | error e1 => simp [hn] at h
    | ok ifr1 =>
      simp only [hn] at h
      cases hm : TunInterface.optionMode o ifr1 with
      | error e2 => simp [hm] at h
      | ok ifr2 =>
        simp only [hm] at h
        exact ⟨o, ifr1, ifr2, rfl, hn, hm, h⟩

theorem TunInterface.options_cons_ok (arg0 o : JsValue) (rest : List JsValue)
    (h : TunInterface.options (arg0 :: rest) = .ok o) : o = arg0 ∧ arg0.IsObject = true := by
  simp only [TunInterface.options] at h
  split_ifs at h with hobj
  · exact ⟨(Except.ok.inj h).symm, by simpa using hobj⟩

/-- The constructor on arguments `request` rejects. -/
theorem TunInterface.ctor_of_request_error (P : Platform) (self : TunInterface)
    (info : List JsValue) (tr : Trace) (e : JsError) (h : TunInterface.request info = .error e) :
    TunInterface.ctor P self info tr = { self := self, result := .error e, trace := tr } := by
  simp [TunInterface.ctor, h]

/-- C4. Configuration errors of the constructor are raised before any kernel
call.  When the first argument is not an object, or has a `name` that is not a
string, or a `mode` that is not one of the strings "tun" and "tap", or a `pi`
that is not a boolean, the constructor raises a `TypeError`, yields no handle,
leaves the object's members as they were and issues no call at all: the trace
is the one it started from. -/
theorem C4_config_error_before_kernel (P : Platform) (self : TunInterface) (arg0 : JsValue)
    (rest : List JsValue) (tr : Trace)
    (h : arg0.IsObject = false
      ∨ (arg0.Has "name" = true ∧ (arg0.Get "name").IsString = false)
      ∨ (arg0.Has "mode" = true ∧ arg0.Get "mode" ≠ JsValue.string (ascii "tun")
          ∧ arg0.Get "mode" ≠ JsValue.string (ascii "tap"))
      ∨ (arg0.Has "pi" = true ∧ (arg0.Get "pi").IsBoolean = false)) :
    (∃ msg, (TunInterface.ctor P self (arg0 :: rest) tr).result
        = .error (JsError.typeError msg))
      ∧ (TunInterface.ctor P self (arg0 :: rest) tr).handle = none
      ∧ (TunInterface.ctor P self (arg0 :: rest) tr).self = self
      ∧ (TunInterface.ctor P self (arg0 :: rest) tr).trace = tr := by
  cases hr : TunInterface.request (arg0 :: rest) with
  | error e =>
    obtain ⟨msg, rfl⟩ := TunInterface.request_error_kind _ _ hr
    rw [TunInterface.ctor_of_request_error P self _ tr _ hr]
    exact ⟨⟨msg, rfl⟩, rfl, rfl, rfl⟩
  | ok ifr =>
    exfalso
    obtain ⟨o, ifr1, ifr2, ho, hn, hm, hp⟩ := TunInterface.request_ok_steps _ _ hr
    obtain ⟨rfl, hobj⟩ := TunInterface.options_cons_ok _ _ _ ho
    rcases h with h | h | h | h
    · rw [hobj] at h
      exact Bool.noConfusion h
    · exact TunInterface.optionName_ok_valid _ _ _ hn h
    · exact TunInterface.optionMode_ok_valid _ _ _ hm h
    · exact TunInterface.optionPi_ok_valid _ _ _ hp h

/-- Witness of C4: `new TunInterface({mode: "tep"})`. -/
theorem C4_config_error_before_kernel_witness :
    (∃ msg, (TunInterface.ctor grantingPlatform freshObject
          [JsValue.object [("mode", JsValue.string (ascii "tep"))]] []).result
        = .error (JsError.typeError msg))
      ∧ (TunInterface.ctor grantingPlatform freshObject
          [JsValue.object [("mode", JsValue.string (ascii "tep"))]] []).handle = none
      ∧ (TunInterface.ctor grantingPlatform freshObject
          [JsValue.object [("mode", JsValue.string (ascii "tep"))]] []).self = freshObject
      ∧ (TunInterface.ctor grantingPlatform freshObject
          [JsValue.object [("mode", JsValue.string (ascii "tep"))]] []).trace = [] :=
  C4_config_error_before_kernel grantingPlatform freshObject
    (JsValue.object [("mode", JsValue.string (ascii "tep"))]) [] []
    (Or.inr (Or.inr (Or.inl ⟨by decide, by simp [JsValue.Get, ascii], by simp [JsValue.Get, ascii]⟩)))

theorem TunInterface.optionName_ok_fields (o : JsValue) (ifr ifr1 : Ifreq)
    (h : TunInterface.optionName o ifr = .ok ifr1) :
    ifr1.ifr_flags = ifr.ifr_flags ∧ ifr1.ifr_addr_data = ifr.ifr_addr_data
      ∧ ifr1.ifr_name = if o.Has "name" = true
          then strncpy (o.Get "name").AsStdString IFNAMSIZ else ifr.ifr_name := by
  unfold TunInterface.optionName at h
  dsimp only at h
  split_ifs at h with h1 h2
  · cases Except.ok.inj h
    simp [h1]
  · cases Except.ok.inj h
    simp [h1]

theorem TunInterface.optionMode_ok_fields (o : JsValue) (ifr ifr2 : Ifreq)
    (h : TunInterface.optionMode o ifr = .ok ifr2) :
    ifr2.ifr_name = ifr.ifr_name ∧ ifr2.ifr_addr_data = ifr.ifr_addr_data
      ∧ ∃ modeBit, ifr2.ifr_flags = ifr.ifr_flags ||| modeBit
        ∧ ((o.Has "mode" = true ∧ o.Get "mode" = JsValue.string (ascii "tap")
              ∧ modeBit = IFF_TAP)
          ∨ ((o.Has "mode" = false ∨ o.Get "mode" = JsValue.string (ascii "tun"))
              ∧ modeBit = IFF_TUN)) := by
  unfold TunInterface.optionMode at h
  dsimp only at h
  split_ifs at h with h1 h2 h3 h4
  · cases Except.ok.inj h
    exact ⟨rfl, rfl, IFF_TUN, rfl, Or.inr ⟨Or.inl (by simpa using h1), rfl⟩⟩
  · cases Except.ok.inj h
    refine ⟨rfl, rfl, IFF_TUN, rfl, Or.inr ⟨Or.inr ?_, rfl⟩⟩
    cases hg : o.Get "mode" <;> simp_all [JsValue.IsString, JsValue.AsStdString]
  · cases Except.ok.inj h
    refine ⟨rfl, rfl, IFF_TAP, rfl, Or.inl ⟨by simpa using h1, ?_, rfl⟩⟩
    cases hg : o.Get "mode" <;> simp_all [JsValue.IsString, JsValue.AsStdString]

theorem TunInterface.optionPi_ok_fields (o : JsValue) (ifr2 ifr : Ifreq)
    (h : TunInterface.optionPi o ifr2 = .ok ifr) :
    ifr.ifr_name = ifr2.ifr_name ∧ ifr.ifr_addr_data = ifr2.ifr_addr_data
      ∧ ∃ noPiBit, ifr.ifr_flags = ifr2.ifr_flags ||| noPiBit
        ∧ (((o.Has "pi" = false ∨ o.Get "pi" = JsValue.boolean false) ∧ noPiBit = IFF_NO_PI)
          ∨ (o.Has "pi" = true ∧ o.Get "pi" = JsValue.boolean true ∧ noPiBit = 0)) := by
  unfold TunInterface.optionPi at h
  split_ifs at h with h1 h2 h3
  · cases Except.ok.inj h
    exact ⟨rfl, rfl, IFF_NO_PI, rfl, Or.inl ⟨Or.inl (by simpa using h1), rfl⟩⟩
  · cases Except.ok.inj h
    refine ⟨rfl, rfl, IFF_NO_PI, rfl, Or.inl ⟨Or.inr ?_, rfl⟩⟩
    cases hg : o.Get "pi" <;> simp_all [JsValue.IsBoolean, JsValue.AsBool]
  · cases Except.ok.inj h
    refine ⟨rfl, rfl, 0, (Nat.or_zero _).symm, Or.inr ⟨by simpa using h1, ?_, rfl⟩⟩
    cases hg : o.Get "pi" <;> simp_all [JsValue.IsBoolean, JsValue.AsBool]

/-- The calls of the constructor once `open` has succeeded: `open`, then
`TUNSETIFF` on the descriptor `open` returned, carrying the request built from
the arguments. -/
theorem TunInterface.ctor_trace_of_open (P : Platform) (self : TunInterface)
    (info : List JsValue) (tr : Trace) (ifr : Ifreq) (h : TunInterface.request info = .ok ifr)
    (hopen : 0 ≤ (TunInterface.openReply P tr).ret) :
    (TunInterface.ctor P self info tr).trace
      = tr ++ [Syscall.open "/dev/net/tun" O_RDWR,
          Syscall.ioctl (TunInterface.openReply P tr).ret
            IoctlRequest.TUNSETIFF (IoctlArg.ifreq ifr)] := by
  simp only [TunInterface.ctor, h, not_lt.mpr hopen, if_false]
  split_ifs <;> rfl

/-- C3. For every argument list that passes validation, the flags word of the
request built for `TUNSETIFF` is exactly `modeBit ||| noPiBit`, where `modeBit`
is `IFF_TAP` when `mode` is "tap" and `IFF_TUN` when `mode` is "tun" or absent,
and `noPiBit` is `IFF_NO_PI` when `pi` is absent or false and 0 when `pi` is
true; the word never carries both `IFF_TUN` and `IFF_TAP`; and once `open` has
succeeded the `TUNSETIFF` call the constructor issues carries this very
request.  In particular no argument and the empty object both give
`IFF_TUN ||| IFF_NO_PI`, and `{mode: "tap", pi: true}` gives `IFF_TAP`. -/
theorem C3_request_flags :
    (∀ (P : Platform) (self : TunInterface) (info : List JsValue) (tr : Trace) (ifr : Ifreq),
      TunInterface.request info = .ok ifr →
      ∃ o modeBit noPiBit, TunInterface.options info = .ok o
        ∧ ifr.ifr_flags = modeBit ||| noPiBit
        ∧ ((o.Has "mode" = true ∧ o.Get "mode" = JsValue.string (ascii "tap")
              ∧ modeBit = IFF_TAP)
          ∨ ((o.Has "mode" = false ∨ o.Get "mode" = JsValue.string (ascii "tun"))
              ∧ modeBit = IFF_TUN))
        ∧ (((o.Has "pi" = false ∨ o.Get "pi" = JsValue.boolean false) ∧ noPiBit = IFF_NO_PI)
          ∨ (o.Has "pi" = true ∧ o.Get "pi" = JsValue.boolean true ∧ noPiBit = 0))
        ∧ ¬ (ifr.ifr_flags &&& IFF_TUN = IFF_TUN ∧ ifr.ifr_flags &&& IFF_TAP = IFF_TAP)
        ∧ (0 ≤ (TunInterface.openReply P tr).ret →
            (TunInterface.ctor P self info tr).trace
              = tr ++ [Syscall.open "/dev/net/tun" O_RDWR,
                  Syscall.ioctl (TunInterface.openReply P tr).ret
                    IoctlRequest.TUNSETIFF (IoctlArg.ifreq ifr)]))
    ∧ (∃ ifr, TunInterface.request [] = .ok ifr ∧ ifr.ifr_flags = IFF_TUN ||| IFF_NO_PI)
    ∧ (∃ ifr, TunInterface.request [JsValue.object []] = .ok ifr
        ∧ ifr.ifr_flags = IFF_TUN ||| IFF_NO_PI)
    ∧ (∃ ifr, TunInterface.request
          [JsValue.object [("mode", JsValue.string (ascii "tap")), ("pi", JsValue.boolean true)]]
          = .ok ifr
        ∧ ifr.ifr_flags = IFF_TAP) := by
  refine ⟨?_, ⟨_, rfl, rfl⟩, ⟨_, rfl, rfl⟩, ⟨_, rfl, rfl⟩⟩
  intro P self info tr ifr h
  obtain ⟨o, ifr1, ifr2, ho, hn, hm, hp⟩ := TunInterface.request_ok_steps _ _ h
  obtain ⟨hf1, -, -⟩ := TunInterface.optionName_ok_fields _ _ _ hn
  obtain ⟨-, -, m, hf2, hmode⟩ := TunInterface.optionMode_ok_fields _ _ _ hm
  obtain ⟨-, -, p, hf3, hpi⟩ := TunInterface.optionPi_ok_fields _ _ _ hp
  have hflags : ifr.ifr_flags = m ||| p := by
    rw [hf3, hf2, hf1]
    simp [Ifreq.zeroed]
  refine ⟨o, m, p, ho, hflags, hmode, hpi, ?_, TunInterface.ctor_trace_of_open P self info tr ifr h⟩
  have hm2 : m = IFF_TAP ∨ m = IFF_TUN := by
    rcases hmode with ⟨-, -, h1⟩ | ⟨-, h1⟩
    · exact Or.inl h1
    · exact Or.inr h1
  have hp2 : p = IFF_NO_PI ∨ p = 0 := by
    rcases hpi with ⟨-, h1⟩ | ⟨-, -, h1⟩
    · exact Or.inl h1
    · exact Or.inr h1
  rw [hflags]
  rcases hm2 with rfl | rfl <;> rcases hp2 with rfl | rfl <;> decide

/-- Witness of C3: `new TunInterface({mode: "tap", pi: true})` on
`grantingPlatform`. -/
theorem C3_request_flags_witness :
    ∃ o modeBit noPiBit,
      TunInterface.options
          [JsValue.object [("mode", JsValue.string (ascii "tap")), ("pi", JsValue.boolean true)]]
        = .ok o
      ∧ tapPiRequest.ifr_flags = modeBit ||| noPiBit
      ∧ ((o.Has "mode" = true ∧ o.Get "mode" = JsValue.string (ascii "tap")
            ∧ modeBit = IFF_TAP)
        ∨ ((o.Has "mode" = false ∨ o.Get "mode" = JsValue.string (ascii "tun"))
            ∧ modeBit = IFF_TUN))
      ∧ (((o.Has "pi" = false ∨ o.Get "pi" = JsValue.boolean false) ∧ noPiBit = IFF_NO_PI)
        ∨ (o.Has "pi" = true ∧ o.Get "pi" = JsValue.boolean true ∧ noPiBit = 0))
      ∧ ¬ (tapPiRequest.ifr_flags &&& IFF_TUN = IFF_TUN
          ∧ tapPiRequest.ifr_flags &&& IFF_TAP = IFF_TAP)
      ∧ (0 ≤ (TunInterface.openReply grantingPlatform []).ret →
          (TunInterface.ctor grantingPlatform freshObject
              [JsValue.object
                [("mode", JsValue.string (ascii "tap")), ("pi", JsValue.boolean true)]] []).trace
            = [] ++ [Syscall.open "/dev/net/tun" O_RDWR,
                Syscall.ioctl (TunInterface.openReply grantingPlatform []).ret
                  IoctlRequest.TUNSETIFF
                  (IoctlArg.ifreq tapPiRequest)]) :=
  C3_request_flags.1 grantingPlatform freshObject
    [JsValue.object [("mode", JsValue.string (ascii "tap")), ("pi", JsValue.boolean true)]] []
    tapPiRequest rfl

/-! ### Allocation -/

/-- `std::string(buf)` reads a NUL-terminated name back exactly. -/
theorem stringOfChars_terminated (n rest : List Byte) (h0 : 0 ∉ n) :
    stringOfChars (n ++ 0 :: rest) = n := by
  induction n with
  | nil => simp [stringOfChars]
  | cons c cs ih =>
    have hc : c ≠ 0 := fun hc => h0 (hc ▸ List.mem_cons_self _ _)
    have hcs : 0 ∉ cs := fun hm => h0 (List.mem_cons_of_mem _ hm)
    have ih2 := ih hcs
    simp only [stringOfChars] at ih2 ⊢
    rw [List.cons_append, List.takeWhile_cons, if_pos (by simpa using hc), ih2]

/-- The constructor when `open` succeeds and `TUNSETIFF` fails. -/
theorem TunInterface.ctor_of_setiff_failure (P : Platform) (self : TunInterface)
    (info : List JsValue) (tr : Trace) (ifr : Ifreq) (h : TunInterface.request info = .ok ifr)
    (hopen : 0 ≤ (TunInterface.openReply P tr).ret)
    (hfail : (TunInterface.setiffReply P tr ifr).ret < 0) :
    TunInterface.ctor P self info tr
      = { self := { self with fd := (TunInterface.openReply P tr).ret },
          result := .error (throwErrorJs
            ("ioctl TUNSETIFF: " ++ (TunInterface.setiffReply P tr ifr).err)),
          trace := tr ++ [TunInterface.openCall, TunInterface.setiffCall P tr ifr] } := by
  simp [TunInterface.ctor, h, not_lt.mpr hopen, hfail]

/-- The constructor when `open` and `TUNSETIFF` both succeed. -/
theorem TunInterface.ctor_of_success (P : Platform) (self : TunInterface)
    (info : List JsValue) (tr : Trace) (ifr : Ifreq) (h : TunInterface.request info = .ok ifr)
    (hopen : 0 ≤ (TunInterface.openReply P tr).ret)
    (hok : 0 ≤ (TunInterface.setiffReply P tr ifr).ret) :
    TunInterface.ctor P self info tr
      = { self := { fd := (TunInterface.openReply P tr).ret,
                    name := stringOfChars (TunInterface.setiffReply P tr ifr).ifr.ifr_name },
          result := .ok (),
          trace := tr ++ [TunInterface.openCall, TunInterface.setiffCall P tr ifr] } := by
  simp [TunInterface.ctor, h, not_lt.mpr hopen, not_lt.mpr hok]

/-- C1, as the code behaves.  For every argument list that passes validation,
when `open` yields a descriptor `d >= 0` and `TUNSETIFF` on `d` fails, the
constructor issues exactly `open` and `ioctl(d, TUNSETIFF, request)` and no
`close`, raises `ioctl TUNSETIFF: <reason>`, yields no handle, and leaves `d`
stored in the object's `fd`; it is the destructor, run on that object, that
issues `close(d)`. -/
theorem C1_setiff_failure_leaves_close_to_destructor (P : Platform) (self : TunInterface)
    (info : List JsValue) (tr : Trace) (ifr : Ifreq)
    (h : TunInterface.request info = .ok ifr)
    (hopen : 0 ≤ (TunInterface.openReply P tr).ret)
    (hfail : (TunInterface.setiffReply P tr ifr).ret < 0) :
    (TunInterface.ctor P self info tr).trace
        = tr ++ [Syscall.open "/dev/net/tun" O_RDWR,
            Syscall.ioctl (TunInterface.openReply P tr).ret IoctlRequest.TUNSETIFF
              (IoctlArg.ifreq ifr)]
      ∧ (TunInterface.ctor P self info tr).result
        = .error (JsError.error ("ioctl TUNSETIFF: " ++ (TunInterface.setiffReply P tr ifr).err))
      ∧ (TunInterface.ctor P self info tr).handle = none
      ∧ (TunInterface.ctor P self info tr).self.fd = (TunInterface.openReply P tr).ret
      ∧ TunInterface.destructor (TunInterface.ctor P self info tr).self
          (TunInterface.ctor P self info tr).trace
        = tr ++ [Syscall.open "/dev/net/tun" O_RDWR,
            Syscall.ioctl (TunInterface.openReply P tr).ret IoctlRequest.TUNSETIFF
              (IoctlArg.ifreq ifr),
            Syscall.close (TunInterface.openReply P tr).ret] := by
  rw [TunInterface.ctor_of_setiff_failure P self info tr ifr h hopen hfail]
  refine ⟨rfl, rfl, rfl, rfl, ?_⟩
  simp [TunInterface.destructor, TunInterface.openCall, TunInterface.setiffCall]

/-- Witness of C1: `new TunInterface()` on `refusingPlatform`. -/
theorem C1_setiff_failure_leaves_close_to_destructor_witness :
    (TunInterface.ctor refusingPlatform freshObject [] []).trace
        = [] ++ [Syscall.open "/dev/net/tun" O_RDWR,
            Syscall.ioctl (TunInterface.openReply refusingPlatform []).ret IoctlRequest.TUNSETIFF
              (IoctlArg.ifreq defaultRequest)]
      ∧ (TunInterface.ctor refusingPlatform freshObject [] []).result
        = .error (JsError.error ("ioctl TUNSETIFF: "
            ++ (TunInterface.setiffReply refusingPlatform [] defaultRequest).err))
      ∧ (TunInterface.ctor refusingPlatform freshObject [] []).handle = none
      ∧ (TunInterface.ctor refusingPlatform freshObject [] []).self.fd
        = (TunInterface.openReply refusingPlatform []).ret
      ∧ TunInterface.destructor (TunInterface.ctor refusingPlatform freshObject [] []).self
          (TunInterface.ctor refusingPlatform freshObject [] []).trace
        = [] ++ [Syscall.open "/dev/net/tun" O_RDWR,
            Syscall.ioctl (TunInterface.openReply refusingPlatform []).ret IoctlRequest.TUNSETIFF
              (IoctlArg.ifreq defaultRequest),
            Syscall.close (TunInterface.openReply refusingPlatform []).ret] :=
  C1_setiff_failure_leaves_close_to_destructor refusingPlatform freshObject [] []
    defaultRequest rfl (by decide) (by decide)

/-- Counterexample to C1 as stated.  On `refusingPlatform` the constructor
called without arguments passes validation, `open` yields descriptor 3 and
`TUNSETIFF` on 3 fails; the constructor returns having issued `open` and
`ioctl` only: `close(3)` is not among its calls. -/
theorem C1_counterexample :
    TunInterface.request [] = .ok defaultRequest
      ∧ (TunInterface.openReply refusingPlatform []).ret = 3
      ∧ (TunInterface.setiffReply refusingPlatform [] defaultRequest).ret < 0
      ∧ (TunInterface.ctor refusingPlatform freshObject [] []).trace
        = [Syscall.open "/dev/net/tun" O_RDWR,
            Syscall.ioctl 3 IoctlRequest.TUNSETIFF (IoctlArg.ifreq defaultRequest)]
      ∧ (TunInterface.ctor refusingPlatform freshObject [] []).trace
        ≠ [Syscall.open "/dev/net/tun" O_RDWR,
            Syscall.ioctl 3 IoctlRequest.TUNSETIFF (IoctlArg.ifreq defaultRequest),
            Syscall.close 3]
      ∧ Syscall.close 3 ∉ (TunInterface.ctor refusingPlatform freshObject [] []).trace := by
  refine ⟨rfl, rfl, by decide, rfl, by decide, by decide⟩

/-! ### The handle invariant -/

/-- `SetPersist` assigns to no data member. -/
theorem TunInterface.SetPersist_self (P : Platform) (self : TunInterface) (info : List JsValue)
    (tr : Trace) : (TunInterface.SetPersist P self info tr).self = self := by
  unfold TunInterface.SetPersist
  split
  · rfl
  · dsimp only
    split_ifs <;> rfl

/-- `SetAddress` assigns to no data member: the `ifreq` it fills is a local. -/
theorem TunInterface.SetAddress_self (P : Platform) (self : TunInterface) (info : List JsValue)
    (tr : Trace) : (TunInterface.SetAddress P self info tr).self = self := by
  unfold TunInterface.SetAddress
  split
  · rfl
  · dsimp only
    split_ifs <;> rfl

theorem TunInterface.invoke_self (P : Platform) (st : TunInterface × Trace) (call : MethodCall) :
    (TunInterface.invoke P st call).1 = st.1 := by
  cases call with
  | setPersist info => exact TunInterface.SetPersist_self P st.1 info st.2
  | setAddress info => exact TunInterface.SetAddress_self P st.1 info st.2

theorem TunInterface.invokeAll_self (P : Platform) (calls : List MethodCall)
    (st : TunInterface × Trace) : (TunInterface.invokeAll P st calls).1 = st.1 := by
  induction calls generalizing st with
  | nil => rfl
  | cons call calls ih =>
    have hstep : TunInterface.invokeAll P st (call :: calls)
        = TunInterface.invokeAll P (TunInterface.invoke P st call) calls := rfl
    rw [hstep, ih, TunInterface.invoke_self]

/-- C2. Handle invariant.  When construction succeeds, that is `open` returned
a descriptor `d >= 0`, `TUNSETIFF` on `d` succeeded and the kernel wrote back a
non-empty NUL-terminated name `n` into the request, the constructor raises
nothing and yields a handle whose descriptor is exactly `d` and whose name is
exactly `n` (so the descriptor is non-negative and the name non-empty, and the
accessors report them); and after every finite sequence of `setPersist` and
`setAddress` calls, with any arguments and whether each call succeeds or
fails, on any platform, the descriptor is still `d` and the name still `n`. -/
theorem C2_handle_invariant (P : Platform) (self : TunInterface) (info : List JsValue)
    (tr : Trace) (ifr : Ifreq) (d : Int) (n rest : List Byte)
    (h : TunInterface.request info = .ok ifr)
    (hd : (TunInterface.openReply P tr).ret = d) (hd0 : 0 ≤ d)
    (hok : 0 ≤ (TunInterface.setiffReply P tr ifr).ret)
    (hname : (TunInterface.setiffReply P tr ifr).ifr.ifr_name = n ++ 0 :: rest)
    (hn0 : 0 ∉ n) (hne : n ≠ []) :
    (TunInterface.ctor P self info tr).result = .ok ()
      ∧ (TunInterface.ctor P self info tr).handle = some { fd := d, name := n }
      ∧ 0 ≤ (TunInterface.ctor P self info tr).self.fd
      ∧ (TunInterface.ctor P self info tr).self.name ≠ []
      ∧ TunInterface.GetFd (TunInterface.ctor P self info tr).self = JsValue.number d
      ∧ TunInterface.GetName (TunInterface.ctor P self info tr).self = JsValue.string n
      ∧ ∀ (Q : Platform) (calls : List MethodCall),
          (TunInterface.invokeAll Q
              ((TunInterface.ctor P self info tr).self, (TunInterface.ctor P self info tr).trace)
              calls).1.fd = d
            ∧ (TunInterface.invokeAll Q
              ((TunInterface.ctor P self info tr).self, (TunInterface.ctor P self info tr).trace)
              calls).1.name = n := by
  rw [TunInterface.ctor_of_success P self info tr ifr h (hd ▸ hd0) hok, hname,
    stringOfChars_terminated n rest hn0, hd]
  refine ⟨rfl, rfl, hd0, hne, rfl, rfl, ?_⟩
  intro Q calls
  rw [TunInterface.invokeAll_self]
  exact ⟨rfl, rfl⟩

/-- Witness of C2: `new TunInterface()` on `grantingPlatform`, where `open`
yields 3 and the kernel names the device `tun0`. -/
theorem C2_handle_invariant_witness :
    (TunInterface.ctor grantingPlatform freshObject [] []).result = .ok ()
      ∧ (TunInterface.ctor grantingPlatform freshObject [] []).handle
        = some { fd := 3, name := ascii "tun0" }
      ∧ 0 ≤ (TunInterface.ctor grantingPlatform freshObject [] []).self.fd
      ∧ (TunInterface.ctor grantingPlatform freshObject [] []).self.name ≠ []
      ∧ TunInterface.GetFd (TunInterface.ctor grantingPlatform freshObject [] []).self
        = JsValue.number 3
      ∧ TunInterface.GetName (TunInterface.ctor grantingPlatform freshObject [] []).self
        = JsValue.string (ascii "tun0")
      ∧ ∀ (Q : Platform) (calls : List MethodCall),
          (TunInterface.invokeAll Q
              ((TunInterface.ctor grantingPlatform freshObject [] []).self,
                (TunInterface.ctor grantingPlatform freshObject [] []).trace)
              calls).1.fd = 3
            ∧ (TunInterface.invokeAll Q
              ((TunInterface.ctor grantingPlatform freshObject [] []).self,
                (TunInterface.ctor grantingPlatform freshObject [] []).trace)
              calls).1.name = ascii "tun0" :=
  C2_handle_invariant grantingPlatform freshObject [] [] defaultRequest 3 (ascii "tun0")
    (List.replicate 11 0) rfl rfl (by decide) (by decide) rfl (by decide) (by decide)

/-! ### Address assignment -/

/-- `SetAddress` on a string argument: the four calls it issues and what it
hands back, decided by the reply to the last call alone. -/
theorem TunInterface.SetAddress_string (P : Platform) (self : TunInterface) (x : StdString)
    (rest : List JsValue) (tr : Trace) :
    TunInterface.SetAddress P self (JsValue.string x :: rest) tr
      = { self := self,
          result := if (TunInterface.setFlagsReply P self x tr).ret < 0
            then .error (throwErrorJs
              ("ioctl SIOCSIFFLAGS: " ++ (TunInterface.setFlagsReply P self x tr).err))
            else .ok (JsValue.string x),
          trace := tr ++ [TunInterface.socketCall, TunInterface.setAddrCall P self x tr,
            TunInterface.getFlagsCall P self x tr, TunInterface.setFlagsCall P self x tr] } := by
  simp only [TunInterface.SetAddress, JsValue.IsString, JsValue.AsStdString, Bool.not_true,
    Bool.false_eq_true, if_false]
  split_ifs <;> rfl

/-- C7. Echo contract of `setAddress`.  For every platform, handle and string
`x`, the last call `setAddress(x)` issues is `ioctl(sockfd, SIOCSIFFLAGS, ..)`;
the method raises an error exactly when that call returns a negative value,
the error then being `ioctl SIOCSIFFLAGS: <reason>`, and when the call returns
a non-negative value the result is exactly `x`.  Nothing else enters: not the
replies to `socket`, `SIOCSIFADDR` and `SIOCGIFFLAGS`, not what `inet_addr`
makes of `x`. -/
theorem C7_setAddress_echo (P : Platform) (self : TunInterface) (x : StdString)
    (rest : List JsValue) (tr : Trace) :
    ∃ before last sockfd req,
      (TunInterface.SetAddress P self (JsValue.string x :: rest) tr).trace = before ++ [last]
      ∧ last = Syscall.ioctl sockfd IoctlRequest.SIOCSIFFLAGS (IoctlArg.ifreq req)
      ∧ ((∃ e, (TunInterface.SetAddress P self (JsValue.string x :: rest) tr).result = .error e)
          ↔ (P.sys before last).ret < 0)
      ∧ ((P.sys before last).ret < 0 →
          (TunInterface.SetAddress P self (JsValue.string x :: rest) tr).result
            = .error (JsError.error ("ioctl SIOCSIFFLAGS: " ++ (P.sys before last).err)))
      ∧ (0 ≤ (P.sys before last).ret →
          (TunInterface.SetAddress P self (JsValue.string x :: rest) tr).result
            = .ok (JsValue.string x)) := by
  refine ⟨tr ++ [TunInterface.socketCall, TunInterface.setAddrCall P self x tr,
      TunInterface.getFlagsCall P self x tr], TunInterface.setFlagsCall P self x tr,
    TunInterface.sockfd P tr, TunInterface.flagsRequest P self x tr, ?_, rfl, ?_⟩
  · rw [TunInterface.SetAddress_string]
    simp
  · rw [TunInterface.SetAddress_string]
    have hfinal : P.sys (tr ++ [TunInterface.socketCall, TunInterface.setAddrCall P self x tr,
        TunInterface.getFlagsCall P self x tr]) (TunInterface.setFlagsCall P self x tr)
        = TunInterface.setFlagsReply P self x tr := rfl
    rw [hfinal]
    by_cases hr : (TunInterface.setFlagsReply P self x tr).ret < 0
    · simp [hr, throwErrorJs]
    · simp [hr, not_lt.mp hr]

/-- C9, as the code behaves.  `setAddress` called with no argument, or with a
first argument that is not a string, raises a `TypeError` and issues no kernel
call.  The empty string is a string like any other: `setAddress("")` opens the
socket and issues the three control calls. -/
theorem C9_setAddress_config_error :
    (∀ (P : Platform) (self : TunInterface) (info : List JsValue) (tr : Trace),
      (info = [] ∨ ∃ arg0 rest, info = arg0 :: rest ∧ arg0.IsString = false) →
      (∃ msg, (TunInterface.SetAddress P self info tr).result = .error (JsError.typeError msg))
        ∧ (TunInterface.SetAddress P self info tr).trace = tr)
    ∧ (∀ (P : Platform) (self : TunInterface) (rest : List JsValue) (tr : Trace),
      (TunInterface.SetAddress P self (JsValue.string [] :: rest) tr).trace
        = tr ++ [Syscall.socket AF_INET SOCK_DGRAM 0, TunInterface.setAddrCall P self [] tr,
            TunInterface.getFlagsCall P self [] tr, TunInterface.setFlagsCall P self [] tr]) := by
  constructor
  · intro P self info tr h
    rcases h with h | ⟨arg0, rest, h, hs⟩
    · subst h
      exact ⟨⟨_, rfl⟩, rfl⟩
    · subst h
      simp [TunInterface.SetAddress, hs, throwTypeError]
  · intro P self rest tr
    rw [TunInterface.SetAddress_string]
    rfl

/-- Witness of C9: `setAddress(true)` on the handle `tun0`. -/
theorem C9_setAddress_config_error_witness :
    (∃ msg, (TunInterface.SetAddress grantingPlatform tun0 [JsValue.boolean true] []).result
        = .error (JsError.typeError msg))
      ∧ (TunInterface.SetAddress grantingPlatform tun0 [JsValue.boolean true] []).trace = [] :=
  C9_setAddress_config_error.1 grantingPlatform tun0 [JsValue.boolean true] []
    (Or.inr ⟨_, _, rfl, rfl⟩)

/-- Counterexample to C9 as stated.  `setAddress("")` on the handle `tun0`
raises nothing: it returns `""`, having opened a socket and issued three
`ioctl` calls on it. -/
theorem C9_counterexample :
    (TunInterface.SetAddress grantingPlatform tun0 [JsValue.string []] []).result
        = .ok (JsValue.string [])
      ∧ (TunInterface.SetAddress grantingPlatform tun0 [JsValue.string []] []).trace ≠ []
      ∧ Syscall.socket AF_INET SOCK_DGRAM 0
        ∈ (TunInterface.SetAddress grantingPlatform tun0 [JsValue.string []] []).trace
      ∧ ((TunInterface.SetAddress grantingPlatform tun0 [JsValue.string []] []).trace).length
        = 4 := by
  refine ⟨rfl, by decide, by decide, rfl⟩

/-! ### Bounded copies of names -/

theorem strncpy_nil (k : Nat) : strncpy [] k = List.replicate k 0 := by
  induction k with
  | zero => rfl
  | succ k ih => simp [strncpy, ih, List.replicate_succ]

/-- The destination of `strncpy(dst, src, k)` always holds `k` bytes. -/
theorem strncpy_length (s : StdString) (k : Nat) : (strncpy s k).length = k := by
  induction k generalizing s with
  | zero => cases s <;> rfl
  | succ k ih =>
    cases s with
    | nil => simp [strncpy_nil]
    | cons c cs =>
      simp only [strncpy]
      split_ifs <;> simp [ih]

/-- A source with `k` or more bytes before its first NUL: the destination
holds its first `k` bytes and no NUL at all. -/
theorem strncpy_overlong (s : StdString) (k : Nat) (h : k ≤ (stringOfChars s).length) :
    strncpy s k = s.take k ∧ 0 ∉ strncpy s k := by
  induction s generalizing k with
  | nil =>
    have hk : k = 0 := by simpa [stringOfChars] using h
    subst hk
    simp [strncpy]
  | cons c cs ih =>
    cases k with
    | zero => simp [strncpy]
    | succ k =>
      by_cases hc : c = 0
      · simp [stringOfChars, hc] at h
      · have hk : k ≤ (stringOfChars cs).length := by
          simpa [stringOfChars, List.takeWhile_cons, hc] using h
        obtain ⟨h1, h2⟩ := ih k hk
        refine ⟨by simp [strncpy, hc, h1], ?_⟩
        simp only [strncpy, if_neg hc, List.mem_cons, not_or]
        exact ⟨fun h0 => hc h0.symm, h2⟩

/-- The name field of the request built from an object with a string `name`. -/
theorem TunInterface.request_name (props : List (String × JsValue)) (rest : List JsValue)
    (name : StdString) (ifr : Ifreq)
    (hname : (JsValue.object props).Get "name" = JsValue.string name)
    (hhas : (JsValue.object props).Has "name" = true)
    (h : TunInterface.request (JsValue.object props :: rest) = .ok ifr) :
    ifr.ifr_name = strncpy name IFNAMSIZ := by
  obtain ⟨o, ifr1, ifr2, ho, hn, hm, hp⟩ := TunInterface.request_ok_steps _ _ h
  obtain ⟨rfl, -⟩ := TunInterface.options_cons_ok _ _ _ ho
  obtain ⟨-, -, hn1⟩ := TunInterface.optionName_ok_fields _ _ _ hn
  obtain ⟨hn2, -, -⟩ := TunInterface.optionMode_ok_fields _ _ _ hm
  obtain ⟨hn3, -, -⟩ := TunInterface.optionPi_ok_fields _ _ _ hp
  rw [hn3, hn2, hn1, if_pos hhas, hname]
  rfl

/-- C8 at its failing input.  For `new TunInterface({name: "abcdefghijklmnop"})`,
a name of `IFNAMSIZ` = 16 bytes, the constructor passes validation and, `open`
having returned descriptor 3, issues `TUNSETIFF` with a name field made of the
16 bytes of the name: the field holds no NUL, so the string in it is not
terminated within the field and is 16 bytes long, not at most 15. -/
theorem C8_name_field_unterminated :
    TunInterface.request [JsValue.object [("name", JsValue.string (ascii "abcdefghijklmnop"))]]
        = .ok sixteenByteRequest
      ∧ (TunInterface.ctor grantingPlatform freshObject
          [JsValue.object [("name", JsValue.string (ascii "abcdefghijklmnop"))]] []).trace
        = [Syscall.open "/dev/net/tun" O_RDWR,
            Syscall.ioctl 3 IoctlRequest.TUNSETIFF (IoctlArg.ifreq sixteenByteRequest)]
      ∧ sixteenByteRequest.ifr_name = ascii "abcdefghijklmnop"
      ∧ sixteenByteRequest.ifr_name.length = IFNAMSIZ
      ∧ 0 ∉ sixteenByteRequest.ifr_name
      ∧ ¬ (stringOfChars sixteenByteRequest.ifr_name).length ≤ IFNAMSIZ - 1 := by
  refine ⟨rfl, rfl, rfl, rfl, by decide, by decide⟩
